import Mathlib

/-!
Shallow embedding of the `simple-api` demo servers.

The repository contains three near-identical Express applications:
  * `src/index.js` — the full variant (CORS `origin: '*'`, swagger,
    graphql, actuator, admin, crash, static files, home page, and the
    `POST /api/update-config` mutator over the in-memory `productionDB`);
  * the first document of `src/unnamed/part_000` — a byte-for-byte
    behavioural duplicate of `src/index.js` (only the static HTML table of
    the home page differs cosmetically), so the `handle` function below
    models both;
  * the second document of `src/unnamed/part_000` (lines 206-227) — a
    minimal variant with a hardcoded port 3000, no `cors` middleware and
    only the `/api-docs` and `/hello` routes, modelled by `minimalHandle`.

JavaScript values appearing in the handlers (JSON bodies, the `||`
defaulting idiom, template-literal interpolation) are embedded as `JValue`
with JS truthiness and `String()` conversion.
-/

/-- JavaScript values as they flow through the handlers: `undefined`
(absent property), `null`, booleans, numbers (the bodies in question carry
integers), strings, JSON objects and arrays. -/
inductive JValue where
  | jundefined : JValue
  | jnull : JValue
  | jbool : Bool → JValue
  | jnum : Int → JValue
  | jstr : String → JValue
  | jobj : List (String × JValue) → JValue
  | jarr : List JValue → JValue

/-- JavaScript truthiness: `undefined`, `null`, `false`, `0` and `""` are
falsy; every object and array is truthy. -/
def JValue.truthy : JValue → Bool
  | .jundefined => false
  | .jnull => false
  | .jbool b => b
  | .jnum n => decide (n ≠ 0)
  | .jstr s => decide (s ≠ "")
  | .jobj _ => true
  | .jarr _ => true

/-- The JavaScript `a || b` defaulting idiom (`req.body.user || 'anonymous'`,
`productionDB.lastModifiedBy || '—'`): the left operand when truthy,
otherwise the right. -/
def jsOr (v d : JValue) : JValue :=
  if v.truthy then v else d

mutual

/-- JavaScript `String(v)` conversion as used by template-literal
interpolation in the home page. -/
def jsToString : JValue → String
  | .jundefined => "undefined"
  | .jnull => "null"
  | .jbool true => "true"
  | .jbool false => "false"
  | .jnum n => toString n
  | .jstr s => s
  | .jobj _ => "[object Object]"
  | .jarr elems => jsArrJoin elems

/-- Array-to-string conversion: elements joined by commas, with `null`
and `undefined` elements rendered empty, as JavaScript `Array.join` does. -/
def jsArrJoin : List JValue → String
  | [] => ""
  | [JValue.jnull] => ""
  | [JValue.jundefined] => ""
  | [e] => jsToString e
  | JValue.jnull :: rest => "," ++ jsArrJoin rest
  | JValue.jundefined :: rest => "," ++ jsArrJoin rest
  | e :: rest => jsToString e ++ "," ++ jsArrJoin rest

end

/-- Property lookup on a parsed JSON object (`req.body.user`): the value
stored under the key, or `undefined` when the key is absent. -/
def lookupField (fields : List (String × JValue)) (k : String) : JValue :=
  match fields.find? (fun p => p.1 == k) with
  | some p => p.2
  | none => .jundefined

/-- A point in time, as the components `new Date()` captures when the
update handler runs. -/
structure DateTime where
  year : Nat
  month : Nat
  day : Nat
  hour : Nat
  minute : Nat
  second : Nat
  ms : Nat

def pad2 (n : Nat) : String :=
  if n < 10 then "0" ++ toString n else toString n

def pad3 (n : Nat) : String :=
  if n < 10 then "00" ++ toString n
  else if n < 100 then "0" ++ toString n
  else toString n

def pad4 (n : Nat) : String :=
  if n < 10 then "000" ++ toString n
  else if n < 100 then "00" ++ toString n
  else if n < 1000 then "0" ++ toString n
  else toString n

/-- `Date.prototype.toISOString`: the `YYYY-MM-DDTHH:mm:ss.sssZ` rendering
of the instant, always a non-empty string. -/
def toISOString (t : DateTime) : String :=
  pad4 t.year ++ "-" ++ pad2 t.month ++ "-" ++ pad2 t.day ++ "T"
    ++ pad2 t.hour ++ ":" ++ pad2 t.minute ++ ":" ++ pad2 t.second
    ++ "." ++ pad3 t.ms ++ "Z"

/-- The Mutable Demo State (`productionDB` in `src/index.js` lines 15-18):
`lastModifiedBy` and `lastModifiedAt`, both initialised to `null`. -/
structure ProductionDB where
  lastModifiedBy : JValue
  lastModifiedAt : JValue

/-- `let productionDB = { lastModifiedBy: null, lastModifiedAt: null }`. -/
def initialDB : ProductionDB :=
  { lastModifiedBy := .jnull, lastModifiedAt := .jnull }

/-- Per-process configuration of the full variant: the `NODE_ENV`
environment variable (read by the actuator route), fixed for the lifetime
of the process. -/
structure Config where
  nodeEnv : Option String

/-- The `process.env.X || d` idiom on environment variables: an unset or
empty variable falls back to the default. -/
def envOrDefault (o : Option String) (d : String) : String :=
  match o with
  | none => d
  | some s => if s = "" then d else s

/-- Response payloads produced directly by handlers in `src/index.js`:
`res.json`, `res.send` of a string, `res.sendFile`. -/
inductive Body where
  | json : JValue → Body
  | text : String → Body
  | file : String → Body

/-- What a route does with the request: answer directly with a status and
body, or delegate to a third-party sub-application (swagger-ui,
express-graphql, express.static), whose own response content lives outside
this repository. -/
inductive Outcome where
  | direct : Nat → Body → Outcome
  | subApp : String → String → Outcome

/-- A response as observed by the client: the CORS `Access-Control-Allow-Origin`
header (set by the `cors({ origin: '*' })` middleware when installed,
absent otherwise) together with the route's outcome. -/
structure Answer where
  allowOrigin : Option String
  outcome : Outcome

/-- The route surface of the full variant, one constructor per registered
route of `src/index.js`. `updateConfig` carries the parsed JSON object
body produced by `express.json()` (all bodies exercised by the spec are
JSON objects; a malformed body is rejected by the middleware before the
handler runs). -/
inductive Request where
  | home : Request
  | hello : Request
  | admin : Request
  | crash : Request
  | actuatorEnv : Request
  | swaggerJson : Request
  | apiDocs : Request
  | swagger : Request
  | swaggerUiHtml : Request
  | graphql : String → Request
  | files : String → Request
  | updateConfig : List (String × JValue) → Request

/-- Whether the request is the `POST /api/update-config` mutator. -/
def Request.isUpdate : Request → Bool
  | .updateConfig _ => true
  | _ => false

/-- Modelled from the runtime: the stack-trace text the V8 engine attaches
to a thrown `Error` and that the Express default error handler sends back.
The frame list is runtime-dependent; what the embedding fixes is that the
body is the `Error: <message>` line followed by call frames. -/
def errStack (msg : String) : String :=
  "Error: " ++ msg ++ "\n    at Layer.handle (node_modules/express/lib/router/layer.js:95:5)"

/-- Home-page HTML of `src/index.js` (lines 80-130): everything the
template literal emits before the first interpolation
`${productionDB.lastModifiedBy || '—'}`. -/
def homeHtml1 : String :=
  "\n    <!DOCTYPE html>\n    <html>\n    <head>\n      <title>🔧 Security Misconfiguration Demo - Liangwei</title>\n      <style>\n        body \x7b\n          font-family: Arial, sans-serif;\n          margin: 2rem auto;\n          max-width: 900px;\n          line-height: 1.6;\n        \x7d\n        h1 \x7b\n          color: #c0392b;\n        \x7d\n        table \x7b\n          width: 100%;\n          border-collapse: collapse;\n          margin-top: 2rem;\n        \x7d\n        th, td \x7b\n          padding: 12px;\n          border: 1px solid #ddd;\n          text-align: left;\n        \x7d\n        th \x7b\n          background-color: #f44336;\n          color: white;\n        \x7d\n        tr:nth-child(even) \x7b\n          background-color: #f9f9f9;\n        \x7d\n        .box \x7b\n          background: #ffe5e5;\n          padding: 1rem;\n          border: 1px solid #c0392b;\n          margin-bottom: 2rem;\n        \x7d\n        .footer \x7b\n          margin-top: 3rem;\n          font-size: 0.9rem;\n          color: #888;\n        \x7d\n      </style>\n    </head>\n    <body>\n      <h1>🔧 Security Misconfiguration Demo</h1>\n\n      <div class=\"box\">\n        <h3>⚠️ Simulated Production State</h3>\n        <p><strong>Last Modified By:</strong> "

/-- Home-page HTML between the two interpolations (`src/index.js` lines
130-131). -/
def homeHtml2 : String :=
  "</p>\n        <p><strong>Last Modified At:</strong> "

/-- Home-page HTML after the second interpolation (`src/index.js` lines
131-187): the endpoint/risk table and the footer. -/
def homeHtml3 : String :=
  "</p>\n      </div>\n\n<table style=\"width:100%;border-collapse:collapse;margin-top:2rem;font-size:0.95rem;box-shadow:0 2px 8px rgba(0,0,0,0.1)\">\n  <thead style=\"background:#c0392b;color:#fff\">\n    <tr>\n      <th style=\"padding:12px\">Endpoint</th>\n      <th style=\"padding:12px\">Risk</th>\n      <th style=\"padding:12px\">Fix</th>\n    </tr>\n  </thead>\n  <tbody>\n    <tr style=\"background:#f9f9f9\">\n      <td style=\"padding:10px\"><code><a href=\"/api-docs\" style=\"color:#e74c3c\">/api-docs</a></code> <br><small>Swagger UI</small></td>\n      <td style=\"padding:10px\">Unauthenticated users can enumerate &amp; invoke internal APIs.</td>\n      <td style=\"padding:10px\">Disable Swagger in prod (e.g., <code>springdoc.swagger-ui.enabled=false</code>).</td>\n    </tr>\n    <tr>\n      <td style=\"padding:10px\"><code><a href=\"/graphql\" style=\"color:#e74c3c\">/graphql</a></code> <br><small>GraphQL Playground</small></td>\n      <td style=\"padding:10px\">Introspection leaks schema; brute-force queries possible.</td>\n      <td style=\"padding:10px\">Disable <code>graphiql</code> &amp; introspection in prod; add auth/RBAC.</td>\n    </tr>\n    <tr style=\"background:#f9f9f9\">\n      <td style=\"padding:10px\"><code><a href=\"/actuator/env\" style=\"color:#e74c3c\">/actuator/env</a></code></td>\n      <td style=\"padding:10px\">Leaks env vars &amp; secrets; some actuator routes have RCE CVEs.</td>\n      <td style=\"padding:10px\">Restrict or remove actuator endpoints in prod; auth/IP whitelist.</td>\n    </tr>\n    <tr>\n      <td style=\"padding:10px\"><code><a href=\"/admin\" style=\"color:#e74c3c\">/admin</a></code></td>\n      <td style=\"padding:10px\">No auth—anyone gets privileged access.</td>\n      <td style=\"padding:10px\">Add token/session auth &amp; IP filtering.</td>\n    </tr>\n    <tr style=\"background:#f9f9f9\">\n      <td style=\"padding:10px\"><code>*</code> (CORS allow-all)</td>\n      <td style=\"padding:10px\">Malicious origins can call your APIs (CSRF-style abuse).</td>\n      <td style=\"padding:10px\">Whitelist trusted domains in CORS config.</td>\n    </tr>\n    <tr>\n      <td style=\"padding:10px\"><code><a href=\"/crash\" style=\"color:#e74c3c\">/crash</a></code></td>\n      <td style=\"padding:10px\">Stack trace reveals internal logic &amp; file paths.</td>\n      <td style=\"padding:10px\">Return generic errors to clients; log details internally.</td>\n    </tr>\n    <tr style=\"background:#f9f9f9\">\n      <td style=\"padding:10px\"><code><a href=\"/files\" style=\"color:#e74c3c\">/files</a></code></td>\n      <td style=\"padding:10px\">Directory listing exposes secrets/logs/configs.</td>\n      <td style=\"padding:10px\">Disable auto-indexing, serve only vetted assets.</td>\n    </tr>\n  </tbody>\n</table>\n\n\n      <div class=\"footer\">\n        Made by Liangwei for public demo purposes only. Simulated vulnerabilities — do not use in real prod apps.\n      </div>\n    </body>\n    </html>\n  "

/-- Template-literal interpolation of a state field on the home page:
`${field || '—'}` converted to text. -/
def tmplField (v : JValue) : String :=
  jsToString (jsOr v (.jstr "—"))

/-- The home page (`app.get('/')` in `src/index.js`): the static HTML with
the two `productionDB` fields interpolated, each falling back to the
`'—'` placeholder when falsy. -/
def renderHome (db : ProductionDB) : String :=
  homeHtml1 ++ tmplField db.lastModifiedBy ++ homeHtml2
    ++ tmplField db.lastModifiedAt ++ homeHtml3

/-- One request of the full variant (`src/index.js` and its duplicate in
`src/unnamed/part_000`): given the process configuration, the current
`productionDB` and the clock reading, produce the next `productionDB` and
the response. The `cors({ origin: '*' })` middleware runs on every route,
so every branch carries `Access-Control-Allow-Origin: *`. Routes mounted
on third-party sub-applications (swagger-ui, express-graphql,
express.static) delegate; none of them touches `productionDB`. -/
def handle (cfg : Config) (db : ProductionDB) (now : DateTime) :
    Request → ProductionDB × Answer
  | .home =>
      (db, ⟨some "*", .direct 200 (.text (renderHome db))⟩)
  | .hello =>
      (db, ⟨some "*", .direct 200 (.json (.jobj [("message", .jstr "Hello World")]))⟩)
  | .admin =>
      (db, ⟨some "*", .direct 200 (.text "⚠️ Welcome to Admin Panel — No Auth Needed")⟩)
  | .crash =>
      (db, ⟨some "*", .direct 500 (.text (errStack "Simulated crash: stack trace leak"))⟩)
  | .actuatorEnv =>
      (db, ⟨some "*", .direct 200 (.json (.jobj
        [("DB_USER", .jstr "admin"),
         ("DB_PASSWORD", .jstr "supersecret"),
         ("NODE_ENV", .jstr (envOrDefault cfg.nodeEnv "development"))]))⟩)
  | .swaggerJson =>
      (db, ⟨some "*", .direct 200 (.file "swagger.yaml")⟩)
  | .apiDocs =>
      (db, ⟨some "*", .subApp "swagger-ui" ""⟩)
  | .swagger =>
      (db, ⟨some "*", .subApp "swagger-ui" ""⟩)
  | .swaggerUiHtml =>
      (db, ⟨some "*", .subApp "swagger-ui" ""⟩)
  | .graphql q =>
      (db, ⟨some "*", .subApp "graphql" q⟩)
  | .files p =>
      (db, ⟨some "*", .subApp "static" p⟩)
  | .updateConfig body =>
      let user := jsOr (lookupField body "user") (.jstr "anonymous")
      (⟨user, .jstr (toISOString now)⟩,
       ⟨some "*", .direct 200 (.json (.jobj
         [("message", .jstr "⚠️ Production config updated!"),
          ("productionDB", .jobj
            [("lastModifiedBy", user),
             ("lastModifiedAt", .jstr (toISOString now))])]))⟩)

/-- Port selection of the full variant:
`const port = process.env.PORT || 3000` — the number `3000` when `PORT` is
unset or empty, otherwise the environment string itself. -/
def fullVariantPort (penv : Option String) : JValue :=
  match penv with
  | none => .jnum 3000
  | some s => if s = "" then .jnum 3000 else .jstr s

/-- Port selection of the minimal variant (`src/unnamed/part_000` line
212): `const port = 3000` — the environment is never consulted. -/
def minimalVariantPort (_penv : Option String) : JValue :=
  .jnum 3000

/-- Requests to the minimal variant (`src/unnamed/part_000` lines
206-227): it registers only `/api-docs` and `/hello`; anything else falls
through to the Express default 404. -/
inductive MinRequest where
  | hello : MinRequest
  | apiDocs : MinRequest
  | other : String → MinRequest

/-- The minimal variant: no state, no `cors` middleware (so no
`Access-Control-Allow-Origin` header on any response), two routes. -/
def minimalHandle : MinRequest → Answer
  | .hello => ⟨none, .direct 200 (.json (.jobj [("message", .jstr "Hello World")]))⟩
  | .apiDocs => ⟨none, .subApp "swagger-ui" ""⟩
  | .other p => ⟨none, .direct 404 (.text ("Cannot GET " ++ p))⟩

/-- Whether a response permits a cross-origin fetch from `o`: the
`Access-Control-Allow-Origin` header is the wildcard or names `o`. -/
def permitsOrigin (a : Answer) (o : String) : Bool :=
  a.allowOrigin == some "*" || a.allowOrigin == some o

/-- HTTP success class. -/
def isSuccess (s : Nat) : Prop := 200 ≤ s ∧ s < 300

/-- HTTP server-error class. -/
def isServerError (s : Nat) : Prop := 500 ≤ s ∧ s < 600

/-- `sub` occurs somewhere inside `s`. -/
def containsStr (s sub : String) : Prop :=
  ∃ pre post, s = pre ++ sub ++ post

/-- Run a sequence of requests (each with its clock reading) against the
full variant, threading the `productionDB` state. -/
def runTrace (cfg : Config) (db : ProductionDB) :
    List (DateTime × Request) → ProductionDB
  | [] => db
  | (t, r) :: rest => runTrace cfg (handle cfg db t r).1 rest

/-- The C2 invariant: the two state fields are unset (`null`) together or
set (non-`null`) together. -/
def bothOrNeither (db : ProductionDB) : Prop :=
  (db.lastModifiedBy = .jnull ∧ db.lastModifiedAt = .jnull)
    ∨ (db.lastModifiedBy ≠ .jnull ∧ db.lastModifiedAt ≠ .jnull)

/-- A concrete configuration used to instantiate universally quantified
theorems. -/
def cfg0 : Config := ⟨none⟩

/-- A concrete clock reading used to instantiate universally quantified
theorems. -/
def d0 : DateTime := ⟨2024, 1, 2, 3, 4, 5, 6⟩

/-- A truthy JavaScript value is never `null`. -/
lemma truthy_ne_jnull {v : JValue} (h : v.truthy = true) : v ≠ .jnull := by
  intro he
  subst he
  simp [JValue.truthy] at h

/-- `a || d` is truthy whenever the default `d` is truthy. -/
lemma jsOr_truthy (v d : JValue) (hd : d.truthy = true) : (jsOr v d).truthy = true := by
  unfold jsOr
  split
  · assumption
  · exact hd

/-- `a || d` returns `a` when `a` is truthy. -/
lemma jsOr_of_truthy {v : JValue} (d : JValue) (h : v.truthy = true) : jsOr v d = v := by
  unfold jsOr
  simp [h]

/-- A non-empty string is truthy. -/
lemma jstr_truthy_of_ne {s : String} (h : s ≠ "") : (JValue.jstr s).truthy = true := by
  simp [JValue.truthy, h]

/-- `toISOString` never yields the empty string. -/
lemma iso_ne_empty (t : DateTime) : toISOString t ≠ "" := by
  intro h
  have h2 := congrArg String.length h
  simp only [toISOString, String.length_append] at h2
  have hz : String.length "Z" = 1 := rfl
  have h0 : String.length "" = 0 := rfl
  omega

/-- Every route except `POST /api/update-config` leaves `productionDB`
unchanged. -/
lemma handle_state_of_not_update (cfg : Config) (db : ProductionDB) (now : DateTime) :
    ∀ r : Request, r.isUpdate = false → (handle cfg db now r).1 = db := by
  intro r h
  cases r <;> first
    | rfl
    | exact absurd h (by simp [Request.isUpdate])

/-- A single handled request preserves the both-set-or-neither invariant. -/
lemma step_bothOrNeither (cfg : Config) (db : ProductionDB) (now : DateTime)
    (r : Request) (h : bothOrNeither db) : bothOrNeither (handle cfg db now r).1 := by
  cases r <;> first
    | exact h
    | exact Or.inr ⟨truthy_ne_jnull (jsOr_truthy _ _ rfl), fun he => JValue.noConfusion he⟩

/-- Any trace of handled requests preserves the both-set-or-neither
invariant. -/
lemma runTrace_bothOrNeither (cfg : Config) :
    ∀ (tr : List (DateTime × Request)) (db : ProductionDB),
      bothOrNeither db → bothOrNeither (runTrace cfg db tr) := by
  intro tr
  induction tr with
  | nil => intro db h; exact h
  | cons p rest ih =>
      intro db h
      obtain ⟨t, r⟩ := p
      exact ih _ (step_bothOrNeither cfg db t r h)

/-- A response carrying the wildcard allow-origin header permits every
origin. -/
lemma permits_of_star (a : Answer) (o : String) (h : a.allowOrigin = some "*") :
    permitsOrigin a o = true := by
  simp [permitsOrigin, h]

/-- The home page rendered on a state whose two fields are a truthy value
and a non-empty timestamp string displays both stored values. -/
lemma renderHome_update (u : JValue) (ts : String) (hu : u.truthy = true) (hts : ts ≠ "") :
    renderHome ⟨u, .jstr ts⟩ = homeHtml1 ++ jsToString u ++ homeHtml2 ++ ts ++ homeHtml3 := by
  simp only [renderHome, tmplField]
  rw [jsOr_of_truthy (JValue.jstr "—") hu,
      jsOr_of_truthy (JValue.jstr "—") (jstr_truthy_of_ne hts)]
  rfl

/-- Claim C1: after `POST /api/update-config` with body `{"user":"alice"}`,
the state reports `lastModifiedBy = "alice"` and a non-empty ISO
timestamp, and every subsequent non-update request preserves that state
(so every subsequent read reports the same values); a body omitting
`user` sets `lastModifiedBy` to `"anonymous"`. -/
theorem update_config_alice_default :
    ∀ (cfg : Config) (db : ProductionDB) (now : DateTime),
      ((handle cfg db now (.updateConfig [("user", .jstr "alice")])).1).lastModifiedBy
          = .jstr "alice"
      ∧ ((handle cfg db now (.updateConfig [("user", .jstr "alice")])).1).lastModifiedAt
          = .jstr (toISOString now)
      ∧ toISOString now ≠ ""
      ∧ (∀ (r : Request) (now2 : DateTime), r.isUpdate = false →
           (handle cfg ((handle cfg db now (.updateConfig [("user", .jstr "alice")])).1)
               now2 r).1
             = (handle cfg db now (.updateConfig [("user", .jstr "alice")])).1)
      ∧ ((handle cfg db now (.updateConfig [])).1).lastModifiedBy = .jstr "anonymous" := by
  intro cfg db now
  refine ⟨rfl, rfl, iso_ne_empty now, ?_, rfl⟩
  intro r now2 h
  exact handle_state_of_not_update cfg _ now2 r h

/-- Witness for C1 at a concrete configuration, state, clock and follow-up
request. -/
theorem update_config_alice_default_w :
    ((handle cfg0 initialDB d0 (.updateConfig [("user", .jstr "alice")])).1).lastModifiedBy
        = .jstr "alice"
      ∧ (handle cfg0 ((handle cfg0 initialDB d0 (.updateConfig [("user", .jstr "alice")])).1)
            d0 Request.hello).1
          = (handle cfg0 initialDB d0 (.updateConfig [("user", .jstr "alice")])).1 :=
  ⟨(update_config_alice_default cfg0 initialDB d0).1,
   (update_config_alice_default cfg0 initialDB d0).2.2.2.1 Request.hello d0 rfl⟩

/-- Claim C2: both state fields start unset (`null`), and every state
reachable by any sequence of handled requests has both fields unset or
both set — never exactly one. -/
theorem state_invariant_both_or_neither :
    initialDB.lastModifiedBy = .jnull
      ∧ initialDB.lastModifiedAt = .jnull
      ∧ ∀ (cfg : Config) (tr : List (DateTime × Request)),
          bothOrNeither (runTrace cfg initialDB tr) := by
  refine ⟨rfl, rfl, ?_⟩
  intro cfg tr
  exact runTrace_bothOrNeither cfg tr initialDB (Or.inl ⟨rfl, rfl⟩)

/-- Claim C3: every route other than `POST /api/update-config` leaves the
state unchanged, and the update route does mutate it (from the initial
state). -/
theorem update_config_only_mutator :
    (∀ (cfg : Config) (db : ProductionDB) (now : DateTime) (r : Request),
        r.isUpdate = false → (handle cfg db now r).1 = db)
      ∧ (handle cfg0 initialDB d0 (.updateConfig [])).1 ≠ initialDB := by
  constructor
  · intro cfg db now r h
    exact handle_state_of_not_update cfg db now r h
  · intro h
    have h2 : JValue.jstr "anonymous" = JValue.jnull :=
      congrArg ProductionDB.lastModifiedBy h
    exact JValue.noConfusion h2

/-- Witness for C3: a concrete `GET /hello` leaves a concrete state
unchanged. -/
theorem update_config_only_mutator_w :
    (handle cfg0 initialDB d0 Request.hello).1 = initialDB :=
  update_config_only_mutator.1 cfg0 initialDB d0 Request.hello rfl

/-- Claim C4 counterexample: in the minimal variant (no `cors`
middleware), the `GET /hello` response carries no
`Access-Control-Allow-Origin` header and so does not permit an arbitrary
origin — the claim fails for that variant. -/
theorem cors_minimal_variant_cex :
    (minimalHandle MinRequest.hello).allowOrigin = none
      ∧ permitsOrigin (minimalHandle MinRequest.hello) "https://evil.example" = false :=
  ⟨rfl, rfl⟩

/-- Claim C4 (amended): every response of the full variant carries the
wildcard `Access-Control-Allow-Origin: *` and so permits every origin on
every route; the minimal variant installs no CORS middleware and none of
its responses carries the header. -/
theorem cors_wildcard_full_variant :
    (∀ (cfg : Config) (db : ProductionDB) (now : DateTime) (r : Request) (o : String),
        (handle cfg db now r).2.allowOrigin = some "*"
          ∧ permitsOrigin ((handle cfg db now r).2) o = true)
      ∧ (∀ m : MinRequest, (minimalHandle m).allowOrigin = none) := by
  constructor
  · intro cfg db now r o
    have hstar : (handle cfg db now r).2.allowOrigin = some "*" := by
      cases r <;> rfl
    exact ⟨hstar, permits_of_star _ _ hstar⟩
  · intro m
    cases m <;> rfl

/-- Claim C5 counterexample: with `PORT=8080` in the environment, the
minimal variant still binds 3000 — it never reads `PORT`, so the claim
fails for that variant. -/
theorem port_minimal_variant_cex :
    minimalVariantPort (some "8080") = JValue.jnum 3000
      ∧ minimalVariantPort (some "8080") ≠ JValue.jstr "8080"
      ∧ minimalVariantPort (some "8080") ≠ JValue.jnum 8080 := by
  refine ⟨rfl, ?_, ?_⟩
  · intro h
    exact JValue.noConfusion h
  · intro h
    injection h with h2
    exact absurd h2 (by decide)

/-- Claim C5 (amended): the full variant reads `PORT` and binds to it,
falling back to 3000 when `PORT` is unset or empty; the minimal variant
ignores the environment and always binds the hardcoded 3000. -/
theorem port_selection :
    fullVariantPort none = JValue.jnum 3000
      ∧ fullVariantPort (some "") = JValue.jnum 3000
      ∧ (∀ s : String, s ≠ "" → fullVariantPort (some s) = JValue.jstr s)
      ∧ (∀ penv2 : Option String, minimalVariantPort penv2 = JValue.jnum 3000) := by
  refine ⟨rfl, rfl, ?_, fun _ => rfl⟩
  intro s hs
  simp [fullVariantPort, hs]

/-- Witness for C5 (amended) at the concrete environment value `"8080"`. -/
theorem port_selection_w : fullVariantPort (some "8080") = JValue.jstr "8080" :=
  port_selection.2.2.1 "8080" (by decide)

/-- Claim C6: `GET /crash` always yields a server-error-class (5xx, never
2xx) response whose body is the stack trace containing the thrown error
message, and leaves the state unchanged. -/
theorem crash_server_error :
    ∀ (cfg : Config) (db : ProductionDB) (now : DateTime),
      (handle cfg db now Request.crash).1 = db
        ∧ ∃ (s : Nat) (b : String),
            (handle cfg db now Request.crash).2.outcome = .direct s (.text b)
              ∧ isServerError s
              ∧ ¬ isSuccess s
              ∧ containsStr b "Simulated crash: stack trace leak" := by
  intro cfg db now
  have hs : isServerError 500 := ⟨by decide, by decide⟩
  have hn : ¬ isSuccess 500 := fun hc => absurd hc.2 (by decide)
  exact ⟨rfl, 500, errStack "Simulated crash: stack trace leak", rfl, hs, hn,
    "Error: ", "\n    at Layer.handle (node_modules/express/lib/router/layer.js:95:5)", rfl⟩

/-- Claim C7: `GET /actuator/env` is stateless and idempotent — the
response is identical across any two states and clock readings, equals the
fixed literals (with the process runtime-mode string), and the state is
untouched. -/
theorem actuator_env_stateless :
    ∀ (cfg : Config) (db db2 : ProductionDB) (now now2 : DateTime),
      (handle cfg db now Request.actuatorEnv).2 = (handle cfg db2 now2 Request.actuatorEnv).2
        ∧ (handle cfg db now Request.actuatorEnv).2
            = ⟨some "*", .direct 200 (.json (.jobj
                [("DB_USER", .jstr "admin"),
                 ("DB_PASSWORD", .jstr "supersecret"),
                 ("NODE_ENV", .jstr (envOrDefault cfg.nodeEnv "development"))]))⟩
        ∧ (handle cfg db now Request.actuatorEnv).1 = db :=
  fun _ _ _ _ _ => ⟨rfl, rfl, rfl⟩

/-- Claim C8: `GET /hello` returns exactly `{"message":"Hello World"}`
with status 200 in every state of the full variant and in the minimal
variant. -/
theorem hello_fixed_json :
    ∀ (cfg : Config) (db : ProductionDB) (now : DateTime),
      handle cfg db now Request.hello
          = (db, ⟨some "*", .direct 200 (.json (.jobj [("message", .jstr "Hello World")]))⟩)
        ∧ minimalHandle MinRequest.hello
            = ⟨none, .direct 200 (.json (.jobj [("message", .jstr "Hello World")]))⟩
        ∧ isSuccess 200 :=
  fun _ _ _ => ⟨rfl, rfl, by decide, by decide⟩

/-- Claim C9: in the initial state the home page shows the `—`
placeholder for both last-modified fields; after any update request it
shows the stored user value and the stored timestamp. -/
theorem home_report_state_box :
    renderHome initialDB = homeHtml1 ++ "—" ++ homeHtml2 ++ "—" ++ homeHtml3
      ∧ ∀ (cfg : Config) (db : ProductionDB) (now : DateTime)
          (body : List (String × JValue)),
          renderHome ((handle cfg db now (.updateConfig body)).1)
            = homeHtml1
                ++ jsToString (((handle cfg db now (.updateConfig body)).1).lastModifiedBy)
                ++ homeHtml2 ++ toISOString now ++ homeHtml3 := by
  constructor
  · rfl
  · intro cfg db now body
    exact renderHome_update _ _
      (jsOr_truthy (lookupField body "user") (JValue.jstr "anonymous") rfl)
      (iso_ne_empty now)

/-- Claim C10: a body whose `user` field holds a falsy value (`""`,
`null`, `false`, `0`) is treated exactly like an absent field —
`lastModifiedBy` becomes `"anonymous"` — while any truthy `user` value is
stored verbatim. -/
theorem update_config_falsy_user :
    ∀ (cfg : Config) (db : ProductionDB) (now : DateTime),
      ((handle cfg db now (.updateConfig [("user", .jstr "")])).1).lastModifiedBy
          = .jstr "anonymous"
      ∧ ((handle cfg db now (.updateConfig [("user", .jnull)])).1).lastModifiedBy
          = .jstr "anonymous"
      ∧ ((handle cfg db now (.updateConfig [("user", .jbool false)])).1).lastModifiedBy
          = .jstr "anonymous"
      ∧ ((handle cfg db now (.updateConfig [("user", .jnum 0)])).1).lastModifiedBy
          = .jstr "anonymous"
      ∧ ∀ v : JValue, v.truthy = true →
          ((handle cfg db now (.updateConfig [("user", v)])).1).lastModifiedBy = v := by
  intro cfg db now
  refine ⟨rfl, rfl, rfl, rfl, ?_⟩
  intro v hv
  show jsOr (lookupField [("user", v)] "user") (.jstr "anonymous") = v
  have h2 : lookupField [("user", v)] "user" = v := rfl
  rw [h2]
  exact jsOr_of_truthy _ hv

/-- Witness for C10 at concrete falsy and truthy `user` values. -/
theorem update_config_falsy_user_w :
    ((handle cfg0 initialDB d0 (.updateConfig [("user", .jstr "")])).1).lastModifiedBy
        = .jstr "anonymous"
      ∧ ((handle cfg0 initialDB d0 (.updateConfig [("user", .jstr "alice")])).1).lastModifiedBy
          = .jstr "alice" :=
  ⟨(update_config_falsy_user cfg0 initialDB d0).1,
   (update_config_falsy_user cfg0 initialDB d0).2.2.2.2 (.jstr "alice") rfl⟩
